import Mathlib

/-!
Shallow embedding of the client-side message reconciliation and
connection-lifecycle engine of the ChatWindow component
(`frontend/app/components/ChatWindow.tsx`).

The component state (React `useState` hooks plus the socket ref and the
pending reconnect timers) is modelled as an explicit `State` record; every
handler of the source — `ws.onopen`, `ws.onmessage`, `ws.onerror`,
`ws.onclose`, the reconnect timer, `sendMessage`, the clarification-option
`onClick`, the filter toggle / clear / apply `onClick`s, and the
`useEffect` cleanup — is a pure function `State → ... → State`.  Outbound
frames (`wsRef.current.send`) are recorded in a ghost `outbox` list, and
calls to `connect()` in a ghost `connects` counter, so that the theorems
can speak about what was sent and when a (re)connect happened.
-/

namespace ChatWindow

/-- Inbound/timeline message record (the `Message` interface of the source,
restricted to the fields the reconciliation and loading logic reads:
`type`, `message`, `action`, `status`, `step`, `timestamp`).  Fields the
engine never inspects (details, result, options, ...) are omitted; they
ride along unread in the source as well. -/
structure Message where
  type : String
  message : Option String := none
  action : Option String := none
  status : Option String := none
  step : Option Nat := none
  timestamp : Nat := 0
  deriving Repr, DecidableEq

/-- Outbound payload built by `sendMessage`: `{instruction}`, extended with
`is_clarification: true, value, clarification_type?` for clarification and
filter answers.  Absent JSON fields are `none` / `false`. -/
structure Payload where
  instruction : String
  is_clarification : Bool := false
  value : Option String := none
  clarification_type : Option String := none
  deriving Repr, DecidableEq

/-- Decidable check that `pat` occurs as a contiguous prefix of a char list. -/
def charsPrefix : List Char → List Char → Bool
  | [], _ => true
  | _ :: _, [] => false
  | c :: cs, d :: ds => c == d && charsPrefix cs ds

/-- Decidable check that `pat` occurs as a contiguous substring of a char list. -/
def charsIncludes (pat : List Char) : List Char → Bool
  | [] => charsPrefix pat []
  | d :: ds => charsPrefix pat (d :: ds) || charsIncludes pat ds

/-- JavaScript `s.includes(pat)` on strings (substring containment). -/
def strIncludes (s pat : String) : Bool :=
  charsIncludes pat.data s.data

/-- JavaScript optional chaining `m?.includes(pat)`: an absent string is
falsy, so the check yields `false`. -/
def optIncludes (m : Option String) (pat : String) : Bool :=
  match m with
  | some s => strIncludes s pat
  | none => false

/-- JavaScript truthiness of an optional string (`undefined` and `""` are
falsy). -/
def strTruthy : Option String → Bool
  | some s => s != ""
  | none => false

/-- JavaScript `a || b` for an optional string `a` and string `b`. -/
def orElse (a : Option String) (b : String) : String :=
  match a with
  | some s => if s == "" then b else s
  | none => b

/-- JavaScript object update `{...m, [k]: v}` on a string-keyed object,
modelled as an association list in key-insertion order: an existing key is
updated in place, a new key is appended at the end. -/
def updateAssoc {α : Type} (k : String) (v : α) : List (String × α) → List (String × α)
  | [] => [(k, v)]
  | (k2, v2) :: rest => if k2 == k then (k, v) :: rest else (k2, v2) :: updateAssoc k v rest

/-- The component state: the six `useState` hooks of the source plus the
socket ref (`wsRef.current !== null` as `wsPresent`), the multiset of
pending reconnect timers (`setTimeout(connect, 3000)` delays), and the two
ghost observers `outbox` (frames passed to `send`) and `connects` (number
of `connect()` invocations). -/
structure State where
  messages : List Message := []
  input : String := ""
  connected : Bool := false
  isLoading : Bool := false
  selectedClarifications : List String := []
  selectedFilters : List (String × List (String × String)) := []
  wsPresent : Bool := false
  timers : List Nat := []
  outbox : List Payload := []
  connects : Nat := 0
  deriving Repr, DecidableEq

/-- The predicate of the keyed-replace branch of `ws.onmessage`: an existing
timeline entry `msg` is removed when it is an `action_status` entry whose
`step` and `action` both equal the incoming event `data`'s. -/
def matchesKey (data msg : Message) : Bool :=
  msg.type == "action_status" && msg.step == data.step && msg.action == data.action

/-- The predicate of the singleton-replace branch of `ws.onmessage`: an
existing `action_status` entry with action `"filter"` is removed. -/
def isFilterCard (msg : Message) : Bool :=
  msg.type == "action_status" && msg.action == some "filter"

/-- The `ws.onmessage` handler.  Loading-flag updates (three independent
conditionals, in source order), then the three-way reconciliation:
keyed replace when `data.step !== undefined`, singleton replace for
step-less filter `action_status` events, plain append otherwise.  The
appended entry is `{...data, timestamp: Date.now()}`, with `Date.now()`
passed in as `now`. -/
def processEvent (st : State) (data : Message) (now : Nat) : State :=
  let load1 := if data.type == "status" && optIncludes data.message "Planning" then true else st.isLoading
  let load2 := if data.type == "status" && optIncludes data.message "completed" then false else load1
  let load3 := if data.type == "action_status" && data.action == some "filter" && data.status == some "completed" then false else load2
  let msgs :=
    if data.type == "action_status" && data.step.isSome then
      (st.messages.filter fun msg => !(matchesKey data msg)) ++ [{ data with timestamp := now }]
    else if data.type == "action_status" && data.action == some "filter" then
      (st.messages.filter fun msg => !(isFilterCard msg)) ++ [{ data with timestamp := now }]
    else
      st.messages ++ [{ data with timestamp := now }]
  { st with isLoading := load3, messages := msgs }

/-- The `ws.onopen` handler: sets `connected` and appends the synthetic
"Connected to server" system entry. -/
def onOpen (st : State) (now : Nat) : State :=
  { st with
      connected := true
      messages := st.messages ++ [{ type := "system", message := some "Connected to server", timestamp := now }] }

/-- The `ws.onerror` handler: clears `connected` and the loading flag. -/
def onError (st : State) : State :=
  { st with connected := false, isLoading := false }

/-- The `ws.onclose` handler: clears `connected` and the loading flag,
appends the synthetic disconnect system entry, and unconditionally runs
`setTimeout(connect, 3000)`, recorded as one more pending timer of delay
3000. -/
def onClose (st : State) (now : Nat) : State :=
  { st with
      connected := false
      isLoading := false
      messages := st.messages ++ [{ type := "system", message := some "Disconnected from server. Reconnecting...", timestamp := now }]
      timers := st.timers ++ [3000] }

/-- The `connect()` function: creates a fresh socket and stores it in
`wsRef`.  The state effects observable here are `wsRef.current` becoming
non-null and one more `connect()` invocation; `connected` only changes
later, through the new socket's callbacks. -/
def connect (st : State) : State :=
  { st with wsPresent := true, connects := st.connects + 1 }

/-- A pending reconnect timer elapses: it is consumed and its callback
`connect` runs.  With no pending timer nothing happens. -/
def fireTimer (st : State) : State :=
  match st.timers with
  | [] => st
  | _ :: rest => connect { st with timers := rest }

/-- The `useEffect` cleanup (component disposal): `if (wsRef.current)
wsRef.current.close()`.  Closing the socket only requests a close — the
resulting close event runs `onClose` later — and nothing else is done: in
particular no `clearTimeout`, so the pending-timer list is untouched. -/
def teardown (st : State) : State :=
  st

/-- The `sendMessage(clarificationValue?, clarificationType?)` function:
computes `messageToSend = clarificationValue || input.trim()`, and when it
is truthy and a socket exists and `connected`, sends the payload, appends a
`user` timeline entry, clears the input and sets the loading flag;
otherwise it does nothing. -/
def sendMessage (st : State) (clarificationValue clarificationType : Option String) (now : Nat) : State :=
  let messageToSend := orElse clarificationValue st.input.trim
  if messageToSend != "" && st.wsPresent && st.connected then
    let payload : Payload :=
      { instruction := messageToSend
        is_clarification := strTruthy clarificationValue
        value := if strTruthy clarificationValue then clarificationValue else none
        clarification_type :=
          if strTruthy clarificationValue && strTruthy clarificationType then clarificationType else none }
    { st with
        outbox := st.outbox ++ [payload]
        messages := st.messages ++ [{ type := "user", message := some messageToSend, timestamp := now }]
        input := ""
        isLoading := true }
  else st

/-- The clarification-option `onClick` handler.  `clarificationId` is the
`timestamp-question` string of the clarification entry and `optionId` its
`clarificationId-optIdx` string, both precomputed at render.  The click is
a no-op when the question (`isFrozen`) or the option (`isSelected`) is
already in the answered set; otherwise both ids are added and
`sendMessage(option.value, clarificationType)` runs. -/
def selectClarificationOption (st : State) (clarificationId optionId value : String)
    (clarificationType : Option String) (now : Nat) : State :=
  if st.selectedClarifications.contains clarificationId || st.selectedClarifications.contains optionId then
    st
  else
    sendMessage
      { st with selectedClarifications := optionId :: clarificationId :: st.selectedClarifications }
      (some value) clarificationType now

/-- The filter-option `onClick` handler: single-select-with-deselect per
field.  A re-click of the current selection stores `''`; otherwise the
option is stored, via the JS object updates `{...prev, [filterId]: {...}}`. -/
def toggleFilterOption (st : State) (filterId field opt : String) : State :=
  let currentFilters := (st.selectedFilters.lookup filterId).getD []
  let isOptionSelected := currentFilters.lookup field == some opt
  { st with
      selectedFilters :=
        updateAssoc filterId
          (updateAssoc field (if isOptionSelected then "" else opt) currentFilters)
          st.selectedFilters }

/-- The "Clear All" `onClick` handler: resets the panel's field map to `{}`. -/
def clearFilters (st : State) (filterId : String) : State :=
  { st with selectedFilters := updateAssoc filterId [] st.selectedFilters }

/-- JavaScript `Array.prototype.join(' ')`: the empty list gives `""`,
otherwise the elements separated by single spaces. -/
def joinSpace : List String → String
  | [] => ""
  | [s] => s
  | s :: rest => s ++ " " ++ joinSpace rest

/-- The "Apply Filters" `onClick` handler: collects the truthy selected
values of the panel's map in its stored key order, joins them with single
spaces (or substitutes `"skip"` when none), and runs
`sendMessage(filterString, 'product_filter_refinement')`. -/
def submitFilters (st : State) (filterId : String) (now : Nat) : State :=
  let currentFilters := (st.selectedFilters.lookup filterId).getD []
  let filterParts := (currentFilters.filter fun fv => fv.2 != "").map fun fv => fv.2
  let filterString := if filterParts.length > 0 then joinSpace filterParts else "skip"
  sendMessage st (some filterString) (some "product_filter_refinement") now

/-- One externally triggered handler invocation: the socket callbacks, the
reconnect timer, and the user-driven actions. -/
inductive Act where
  | inbound : Message → Nat → Act
  | opened : Nat → Act
  | socketError : Act
  | socketClosed : Nat → Act
  | timer : Act
  | setInput : String → Act
  | userSend : Nat → Act
  | selectOpt : String → String → String → Option String → Nat → Act
  | toggleF : String → String → String → Act
  | clearF : String → Act
  | submitF : String → Nat → Act
  | dispose : Act
  deriving Repr, DecidableEq

/-- Dispatch of one handler invocation on the component state. -/
def step (st : State) : Act → State
  | .inbound e now => processEvent st e now
  | .opened now => onOpen st now
  | .socketError => onError st
  | .socketClosed now => onClose st now
  | .timer => fireTimer st
  | .setInput s => { st with input := s }
  | .userSend now => sendMessage st none none now
  | .selectOpt cid oid v t now => selectClarificationOption st cid oid v t now
  | .toggleF p f o => toggleFilterOption st p f o
  | .clearF p => clearFilters st p
  | .submitF p now => submitFilters st p now
  | .dispose => teardown st

/-- The state right after mount: the effect body runs `connect()` once, so
one socket exists; everything else is at its `useState` initial value. -/
def initState : State :=
  connect {}

/-- The state reached by a sequence of handler invocations from mount. -/
def run (acts : List Act) : State :=
  acts.foldl step initState

/-- The event kinds the component recognizes: the `type` values the
renderer and the reconciliation/loading logic branch on. -/
def recognizedTypes : List String :=
  ["user", "action_status", "plan", "error", "status", "system", "clarification", "blocked", "filter_options"]

/-- An `action_status` timeline entry with action `"filter"` and no step
number — the shape produced by the singleton-replace branch. -/
def filterCardNoStep (m : Message) : Bool :=
  isFilterCard m && m.step == none

/-- Modelled from the spec: the submission string formed by joining the
panel's selected option values "in the panel's field declaration order"
(with the `"skip"` sentinel when nothing is selected), stated from the
spec's words for comparison with what the code actually sends. -/
def declarationOrderJoin (declaredFields : List String) (sel : List (String × String)) : String :=
  let parts := declaredFields.filterMap fun f =>
    match sel.lookup f with
    | some v => if v = "" then none else some v
    | none => none
  if parts.length > 0 then joinSpace parts else "skip"

/-- The string an "Apply Filters" click submits for a panel: the truthy
selected values of the panel's map, in stored (first-selected) key order,
joined by single spaces, or the `"skip"` sentinel when none are selected —
the `filterString` local of the source handler. -/
def submitString (st : State) (filterId : String) : String :=
  let filterParts := (((st.selectedFilters.lookup filterId).getD []).filter fun fv => fv.2 != "").map fun fv => fv.2
  if filterParts.length > 0 then joinSpace filterParts else "skip"

/-- A concrete state holding a stale executing card for step 2, used by
the keyed-replace witnesses. -/
def c1State : State :=
  { initState with
      messages := [{ type := "action_status", action := some "click", status := some "executing", step := some 2, timestamp := 0 }] }

/-- The update event of the keyed-replace witnesses. -/
def c1Event : Message :=
  { type := "action_status", action := some "click", status := some "completed", step := some 2 }

/-! General list lemmas used by several claims. -/

theorem filter_not_self_eq_nil {α : Type} (p : α → Bool) (l : List α) :
    (l.filter fun a => !(p a)).filter p = [] := by
  induction l with
  | nil => rfl
  | cons a t ih => cases h : p a <;> simp [List.filter_cons, h, ih]

theorem filter_not_idem {α : Type} (p : α → Bool) (l : List α) :
    (l.filter fun a => !(p a)).filter (fun a => !(p a)) = l.filter fun a => !(p a) := by
  induction l with
  | nil => rfl
  | cons a t ih => cases h : p a <;> simp [List.filter_cons, h, ih]

theorem countP_filter_le {α : Type} (p q : α → Bool) (l : List α) :
    (l.filter q).countP p ≤ l.countP p := by
  induction l with
  | nil => simp
  | cons a t ih =>
    cases hq : q a <;> cases hp : p a <;>
      simp [List.filter_cons, List.countP_cons, hq, hp] <;> omega

/-! Facts about the keyed-replace branch shared by the theorems below. -/

theorem matchesKey_stamp (e : Message) (now : Nat) (h : e.type = "action_status") :
    matchesKey e { e with timestamp := now } = true := by
  simp [matchesKey, h]

theorem processEvent_messages_keyed (st : State) (e : Message) (now : Nat)
    (h : (e.type == "action_status" && e.step.isSome) = true) :
    (processEvent st e now).messages
      = (st.messages.filter fun m => !(matchesKey e m)) ++ [{ e with timestamp := now }] := by
  simp [processEvent, h]

/-- C1: processing an `action_status` event with a defined step leaves the
timeline with exactly one entry for the event's (step, action) key — the
freshly stamped event itself, sitting at the tail — while every entry with
a different key survives the rule unchanged and in order. -/
theorem action_status_keyed_replace (st : State) (e : Message) (now : Nat)
    (htype : e.type = "action_status") (hstep : e.step.isSome = true) :
    (processEvent st e now).messages
      = (st.messages.filter fun m => !(matchesKey e m)) ++ [{ e with timestamp := now }]
    ∧ ((processEvent st e now).messages.filter fun m => matchesKey e m)
      = [{ e with timestamp := now }]
    ∧ ((processEvent st e now).messages.countP fun m => matchesKey e m) = 1
    ∧ (processEvent st e now).messages.getLast? = some { e with timestamp := now } := by
  have hc : (e.type == "action_status" && e.step.isSome) = true := by simp [htype, hstep]
  have hmsgs := processEvent_messages_keyed st e now hc
  have hstamp := matchesKey_stamp e now htype
  refine ⟨hmsgs, ?_, ?_, ?_⟩
  · rw [hmsgs, List.filter_append, filter_not_self_eq_nil]
    simp [hstamp]
  · rw [List.countP_eq_length_filter, hmsgs, List.filter_append, filter_not_self_eq_nil]
    simp [hstamp]
  · rw [hmsgs]
    simp

/-- Witness for C1: the stale executing card for step 2 is replaced by the
completed update, which becomes the unique key match at the tail. -/
theorem action_status_keyed_replace_witness :
    ((processEvent c1State c1Event 7).messages.filter fun m => matchesKey c1Event m)
      = [{ c1Event with timestamp := 7 }]
    ∧ (processEvent c1State c1Event 7).messages.getLast? = some { c1Event with timestamp := 7 } :=
  ⟨(action_status_keyed_replace c1State c1Event 7 rfl rfl).2.1,
   (action_status_keyed_replace c1State c1Event 7 rfl rfl).2.2.2⟩

/-- C8: replaying the same stepped `action_status` event twice in a row
yields the same timeline as processing it once at the final receipt time,
and that timeline holds exactly one entry for the event's key. -/
theorem action_status_replay_idempotent (st : State) (e : Message) (n1 n2 : Nat)
    (htype : e.type = "action_status") (hstep : e.step.isSome = true) :
    (processEvent (processEvent st e n1) e n2).messages = (processEvent st e n2).messages
    ∧ ((processEvent (processEvent st e n1) e n2).messages.countP fun m => matchesKey e m) = 1 := by
  have hc : (e.type == "action_status" && e.step.isSome) = true := by simp [htype, hstep]
  have h1 := processEvent_messages_keyed st e n1 hc
  have h2 := processEvent_messages_keyed (processEvent st e n1) e n2 hc
  have h3 := processEvent_messages_keyed st e n2 hc
  constructor
  · rw [h2, h3, h1, List.filter_append, filter_not_idem]
    simp [matchesKey_stamp e n1 htype]
  · rw [List.countP_eq_length_filter, h2, List.filter_append, filter_not_self_eq_nil]
    simp [matchesKey_stamp e n2 htype]

/-- Witness for C8: the C1 scenario replayed at receipt times 3 and 5. -/
theorem action_status_replay_idempotent_witness :
    (processEvent (processEvent c1State c1Event 3) c1Event 5).messages
      = (processEvent c1State c1Event 5).messages :=
  (action_status_replay_idempotent c1State c1Event 3 5 rfl rfl).1

/-- C3 (amended): each close appends exactly one synthetic disconnect
system event and schedules exactly one reconnect timer with the fixed
3000 ms delay; closes are not deduplicated, so a second close before the
first timer elapses leaves two retry timers outstanding. -/
theorem close_one_event_one_timer (st : State) (n1 n2 : Nat) :
    (step st (Act.socketClosed n1)).messages
      = st.messages ++ [{ type := "system", message := some "Disconnected from server. Reconnecting...", timestamp := n1 }]
    ∧ (step st (Act.socketClosed n1)).timers = st.timers ++ [3000]
    ∧ (step (step st (Act.socketClosed n1)) (Act.socketClosed n2)).timers = st.timers ++ [3000, 3000] := by
  refine ⟨rfl, rfl, by simp [step, onClose]⟩

/-- C3 counterexample: two closes in succession, before any timer fires,
leave two outstanding retry timers, refuting the at-most-one-timer clause
of the claim. -/
theorem close_twice_two_timers :
    (run [Act.socketClosed 0, Act.socketClosed 1]).timers = [3000, 3000]
    ∧ ¬((run [Act.socketClosed 0, Act.socketClosed 1]).timers.length ≤ 1) := by
  exact ⟨rfl, by decide⟩

/-- C7: at component disposal with one pending reconnect timer, the effect
cleanup leaves the timer pending — it only calls `close()` on the socket
and performs no `clearTimeout` — and when that timer later elapses it
still invokes `connect()`, so the reconnect loop survives teardown. -/
theorem teardown_leaks_pending_timer :
    (step { initState with timers := [3000] } Act.dispose) = { initState with timers := [3000] }
    ∧ (step { initState with timers := [3000] } Act.dispose).timers = [3000]
    ∧ (step (step { initState with timers := [3000] } Act.dispose) Act.timer).connects
        = ({ initState with timers := [3000] } : State).connects + 1 := by
  exact ⟨rfl, rfl, rfl⟩

/-! Invariance of the step-less-filter-card count under every handler,
for the singleton-replace claim. -/

theorem countP_append_singleton_false {α : Type} (p : α → Bool) (l : List α) (x : α)
    (hx : p x = false) : (l ++ [x]).countP p = l.countP p := by
  simp [List.countP_append, List.countP_cons, hx]

theorem countP_sendMessage (st : State) (cv ct : Option String) (now : Nat) (p : Message → Bool)
    (hp : ∀ s n, p { type := "user", message := some s, timestamp := n } = false) :
    ((sendMessage st cv ct now).messages.countP p) = st.messages.countP p := by
  simp only [sendMessage]
  split
  · exact countP_append_singleton_false p _ _ (hp _ _)
  · rfl

theorem countP_selectOpt (st : State) (cid oid v : String) (ct : Option String) (now : Nat)
    (p : Message → Bool)
    (hp : ∀ s n, p { type := "user", message := some s, timestamp := n } = false) :
    ((selectClarificationOption st cid oid v ct now).messages.countP p) = st.messages.countP p := by
  unfold selectClarificationOption
  split
  · rfl
  · exact countP_sendMessage _ _ _ _ p hp

theorem countP_filterCardNoStep_processEvent (st : State) (e : Message) (now : Nat)
    (h : st.messages.countP filterCardNoStep ≤ 1) :
    (processEvent st e now).messages.countP filterCardNoStep ≤ 1 := by
  by_cases h1 : (e.type == "action_status" && e.step.isSome) = true
  · rw [processEvent_messages_keyed st e now h1]
    have hx : filterCardNoStep { e with timestamp := now } = false := by
      rw [Bool.and_eq_true] at h1
      cases hstep : e.step with
      | none => rw [hstep] at h1; simp at h1
      | some k => simp [filterCardNoStep, isFilterCard, hstep]
    rw [countP_append_singleton_false _ _ _ hx]
    exact le_trans (countP_filter_le _ _ _) h
  · by_cases h2 : (e.type == "action_status" && e.action == some "filter") = true
    · have hmsgs : (processEvent st e now).messages
          = (st.messages.filter fun m => !(isFilterCard m)) ++ [{ e with timestamp := now }] := by
        simp [processEvent, h1, h2, isFilterCard]
      rw [hmsgs, List.countP_append]
      have hzero : ((st.messages.filter fun m => !(isFilterCard m)).countP filterCardNoStep) = 0 := by
        rw [List.countP_eq_zero]
        intro m hm
        rw [List.mem_filter] at hm
        simp only [filterCardNoStep, Bool.and_eq_true]
        rintro ⟨hf, -⟩
        rw [hf] at hm
        simp at hm
      rw [hzero]
      have hone : (([{ e with timestamp := now }] : List Message).countP filterCardNoStep) ≤ 1 := by
        simp only [List.countP_cons, List.countP_nil]
        split <;> omega
      omega
    · have hmsgs : (processEvent st e now).messages = st.messages ++ [{ e with timestamp := now }] := by
        simp [processEvent, h1, h2]
      have hx : filterCardNoStep { e with timestamp := now } = false := by
        rw [Bool.not_eq_true] at h2
        simp [filterCardNoStep, isFilterCard, h2]
      rw [hmsgs, countP_append_singleton_false _ _ _ hx]
      exact h

theorem countP_filterCardNoStep_step (st : State) (a : Act)
    (h : st.messages.countP filterCardNoStep ≤ 1) :
    (step st a).messages.countP filterCardNoStep ≤ 1 := by
  have hp : ∀ s n, filterCardNoStep { type := "user", message := some s, timestamp := n } = false := by
    intro s n; rfl
  cases a with
  | inbound e now => exact countP_filterCardNoStep_processEvent st e now h
  | opened now =>
      show ((st.messages ++ [_]).countP filterCardNoStep) ≤ 1
      rw [countP_append_singleton_false _ _ _ (by rfl)]
      exact h
  | socketError => exact h
  | socketClosed now =>
      show ((st.messages ++ [_]).countP filterCardNoStep) ≤ 1
      rw [countP_append_singleton_false _ _ _ (by rfl)]
      exact h
  | timer =>
      cases htm : st.timers with
      | nil => simpa [step, fireTimer, htm] using h
      | cons t rest => simpa [step, fireTimer, htm, connect] using h
  | setInput s => exact h
  | userSend now =>
      show ((sendMessage st none none now).messages.countP filterCardNoStep) ≤ 1
      rw [countP_sendMessage st none none now _ hp]
      exact h
  | selectOpt cid oid v ct now =>
      show ((selectClarificationOption st cid oid v ct now).messages.countP filterCardNoStep) ≤ 1
      rw [countP_selectOpt st cid oid v ct now _ hp]
      exact h
  | toggleF p f o => exact h
  | clearF p => exact h
  | submitF p now =>
      show ((submitFilters st p now).messages.countP filterCardNoStep) ≤ 1
      unfold submitFilters
      rw [countP_sendMessage st _ _ now _ hp]
      exact h
  | dispose => exact h

/-- C2 (amended): at every state reachable from mount by any sequence of
handler invocations, the timeline holds at most one step-less filter
`action_status` card; filter events carrying a step number fall under the
keyed-replace rule instead and can coexist with the step-less card. -/
theorem filter_card_singleton_invariant (acts : List Act) :
    (run acts).messages.countP filterCardNoStep ≤ 1 := by
  have key : ∀ (l : List Act) (st : State), st.messages.countP filterCardNoStep ≤ 1 →
      (l.foldl step st).messages.countP filterCardNoStep ≤ 1 := by
    intro l
    induction l with
    | nil => intro st h; exact h
    | cons a t ih => intro st h; exact ih _ (countP_filterCardNoStep_step st a h)
  exact key acts initState (by decide)

/-- C2 counterexample: a step-less filter card survives the keyed-replace
branch triggered by a later filter event that carries a step, so two
`action_status` filter entries coexist in the timeline. -/
theorem two_filter_cards_coexist :
    ((run [Act.inbound { type := "action_status", action := some "filter", status := some "completed" } 0,
           Act.inbound { type := "action_status", action := some "filter", status := some "executing", step := some 1 } 1]).messages.countP isFilterCard) = 2 := by
  decide

/-! The answered-clarification set only ever grows, and a click on an
already-answered question is a no-op; shared by the two clarification
claims. -/

theorem sendMessage_selectedClarifications (st : State) (cv ct : Option String) (now : Nat) :
    (sendMessage st cv ct now).selectedClarifications = st.selectedClarifications := by
  simp only [sendMessage]
  split <;> rfl

theorem sendMessage_noop_disconnected (st : State) (cv ct : Option String) (now : Nat)
    (h : st.connected = false ∨ st.wsPresent = false) :
    sendMessage st cv ct now = st := by
  simp only [sendMessage]
  rcases h with h | h <;> simp [h]

theorem selectOpt_noop_of_mem (st : State) (cid oid v : String) (ct : Option String) (now : Nat)
    (h : st.selectedClarifications.contains cid = true ∨ st.selectedClarifications.contains oid = true) :
    selectClarificationOption st cid oid v ct now = st := by
  have hguard : (st.selectedClarifications.contains cid || st.selectedClarifications.contains oid) = true := by
    rcases h with h | h
    · rw [h, Bool.true_or]
    · rw [h, Bool.or_true]
  unfold selectClarificationOption
  rw [if_pos hguard]

theorem contains_selectedClarifications_step (st : State) (a : Act) (x : String)
    (h : st.selectedClarifications.contains x = true) :
    (step st a).selectedClarifications.contains x = true := by
  cases a with
  | inbound e now => exact h
  | opened now => exact h
  | socketError => exact h
  | socketClosed now => exact h
  | timer =>
      cases htm : st.timers with
      | nil => simpa [step, fireTimer, htm] using h
      | cons t rest => simpa [step, fireTimer, htm, connect] using h
  | setInput s => exact h
  | userSend now =>
      show (sendMessage st none none now).selectedClarifications.contains x = true
      rw [sendMessage_selectedClarifications]
      exact h
  | selectOpt cid oid v ct now =>
      show (selectClarificationOption st cid oid v ct now).selectedClarifications.contains x = true
      simp only [selectClarificationOption]
      split
      · exact h
      · rw [sendMessage_selectedClarifications]
        have hx : x ∈ st.selectedClarifications := by simpa using h
        have : x ∈ oid :: cid :: st.selectedClarifications :=
          List.mem_cons_of_mem _ (List.mem_cons_of_mem _ hx)
        simpa using this
  | toggleF p f o => exact h
  | clearF p => exact h
  | submitF p now =>
      show (submitFilters st p now).selectedClarifications.contains x = true
      simp only [submitFilters]
      rw [sendMessage_selectedClarifications]
      exact h
  | dispose => exact h

theorem contains_selectedClarifications_foldl (acts : List Act) (st : State) (x : String)
    (h : st.selectedClarifications.contains x = true) :
    (acts.foldl step st).selectedClarifications.contains x = true := by
  induction acts generalizing st with
  | nil => exact h
  | cons a t ih => exact ih _ (contains_selectedClarifications_step st a x h)

/-- C5: the first click on a fresh clarification option, with the
connection open, marks both the question and the option as answered and
sends exactly one payload `{instruction: value, is_clarification: true,
value, clarification_type}`; afterwards — even after arbitrary further
handler activity — clicking the same option or any other option of that
question again returns the state unchanged and sends nothing. -/
theorem clarification_select_at_most_once (st : State) (cid oid v : String) (ct : Option String) (n1 : Nat)
    (hcid : st.selectedClarifications.contains cid = false)
    (hoid : st.selectedClarifications.contains oid = false)
    (hws : st.wsPresent = true) (hc : st.connected = true) (hv : v ≠ "") :
    (selectClarificationOption st cid oid v ct n1).selectedClarifications.contains cid = true
    ∧ (selectClarificationOption st cid oid v ct n1).selectedClarifications.contains oid = true
    ∧ (selectClarificationOption st cid oid v ct n1).outbox
        = st.outbox ++ [{ instruction := v, is_clarification := true, value := some v,
                          clarification_type := if strTruthy ct then ct else none }]
    ∧ (∀ (acts : List Act) (cid2 oid2 v2 : String) (ct2 : Option String) (n2 : Nat),
        cid2 = cid ∨ oid2 = oid →
        selectClarificationOption (acts.foldl step (selectClarificationOption st cid oid v ct n1)) cid2 oid2 v2 ct2 n2
          = acts.foldl step (selectClarificationOption st cid oid v ct n1)) := by
  have hguard : ¬((st.selectedClarifications.contains cid || st.selectedClarifications.contains oid) = true) := by
    rw [hcid, hoid]
    exact Bool.false_ne_true
  have hveq : (v == "") = false := by simp [hv]
  have hst1 : selectClarificationOption st cid oid v ct n1
      = sendMessage { st with selectedClarifications := oid :: cid :: st.selectedClarifications }
          (some v) ct n1 := by
    unfold selectClarificationOption
    rw [if_neg hguard]
  have hmemc : (selectClarificationOption st cid oid v ct n1).selectedClarifications.contains cid = true := by
    rw [hst1, sendMessage_selectedClarifications]
    simp
  have hmemo : (selectClarificationOption st cid oid v ct n1).selectedClarifications.contains oid = true := by
    rw [hst1, sendMessage_selectedClarifications]
    simp
  refine ⟨hmemc, hmemo, ?_, ?_⟩
  · rw [hst1]
    cases ct with
    | none => simp [sendMessage, orElse, strTruthy, hveq, hws, hc, hv]
    | some t => simp [sendMessage, orElse, strTruthy, hveq, hws, hc, hv]
  · intro acts cid2 oid2 v2 ct2 n2 hor
    apply selectOpt_noop_of_mem
    rcases hor with hor | hor
    · exact Or.inl (hor ▸ contains_selectedClarifications_foldl acts _ cid hmemc)
    · exact Or.inr (hor ▸ contains_selectedClarifications_foldl acts _ oid hmemo)

/-- Witness for C5: answering question "10-q" with option 0 and value "A"
while connected sends exactly that payload. -/
theorem clarification_select_at_most_once_witness :
    (selectClarificationOption { initState with connected := true } "10-q" "10-q-0" "A" none 1).outbox
      = ({ initState with connected := true } : State).outbox
        ++ [{ instruction := "A", is_clarification := true, value := some "A",
              clarification_type := if strTruthy none then none else none }] :=
  (clarification_select_at_most_once { initState with connected := true } "10-q" "10-q-0" "A" none 1
    rfl rfl rfl rfl (by decide)).2.2.1

/-- C10: selecting a fresh clarification option while disconnected (or
with no socket) still permanently marks the question and option answered,
but sends nothing, appends no timeline entry, and leaves the loading flag
alone; afterwards every further attempt to answer the question is a no-op,
so the answer is silently lost. -/
theorem clarification_select_disconnected_lost (st : State) (cid oid v : String) (ct : Option String) (now : Nat)
    (hcid : st.selectedClarifications.contains cid = false)
    (hoid : st.selectedClarifications.contains oid = false)
    (hdisc : st.connected = false ∨ st.wsPresent = false) :
    (selectClarificationOption st cid oid v ct now).selectedClarifications
        = oid :: cid :: st.selectedClarifications
    ∧ (selectClarificationOption st cid oid v ct now).outbox = st.outbox
    ∧ (selectClarificationOption st cid oid v ct now).messages = st.messages
    ∧ (selectClarificationOption st cid oid v ct now).isLoading = st.isLoading
    ∧ (∀ (acts : List Act) (cid2 oid2 v2 : String) (ct2 : Option String) (n2 : Nat),
        cid2 = cid ∨ oid2 = oid →
        selectClarificationOption (acts.foldl step (selectClarificationOption st cid oid v ct now)) cid2 oid2 v2 ct2 n2
          = acts.foldl step (selectClarificationOption st cid oid v ct now)) := by
  have hguard : ¬((st.selectedClarifications.contains cid || st.selectedClarifications.contains oid) = true) := by
    rw [hcid, hoid]
    exact Bool.false_ne_true
  have hst1 : selectClarificationOption st cid oid v ct now
      = { st with selectedClarifications := oid :: cid :: st.selectedClarifications } := by
    unfold selectClarificationOption
    rw [if_neg hguard]
    exact sendMessage_noop_disconnected _ _ _ _ hdisc
  refine ⟨by rw [hst1], by rw [hst1], by rw [hst1], by rw [hst1], ?_⟩
  intro acts cid2 oid2 v2 ct2 n2 hor
  apply selectOpt_noop_of_mem
  have hmemc : (selectClarificationOption st cid oid v ct now).selectedClarifications.contains cid = true := by
    rw [hst1]; simp
  have hmemo : (selectClarificationOption st cid oid v ct now).selectedClarifications.contains oid = true := by
    rw [hst1]; simp
  rcases hor with hor | hor
  · exact Or.inl (hor ▸ contains_selectedClarifications_foldl acts _ cid hmemc)
  · exact Or.inr (hor ▸ contains_selectedClarifications_foldl acts _ oid hmemo)

/-- Witness for C10: answering while disconnected records the ids but
sends nothing. -/
theorem clarification_select_disconnected_lost_witness :
    (selectClarificationOption initState "10-q" "10-q-0" "A" none 1).selectedClarifications
        = "10-q-0" :: "10-q" :: initState.selectedClarifications
    ∧ (selectClarificationOption initState "10-q" "10-q-0" "A" none 1).outbox = initState.outbox :=
  ⟨(clarification_select_disconnected_lost initState "10-q" "10-q-0" "A" none 1 rfl rfl (Or.inl rfl)).1,
   (clarification_select_disconnected_lost initState "10-q" "10-q-0" "A" none 1 rfl rfl (Or.inl rfl)).2.1⟩

/-- C6: loading-flag transitions of the message handler: a `status` event
whose message contains "Planning" (and not "completed") sets the flag; a
`status` event whose message contains "completed" clears it — this rule
runs later in source order, so it wins when both substrings occur; a
filter `action_status` with status "completed" clears it; an event
matching none of the rules leaves the flag unchanged. -/
theorem loading_flag_rules (st : State) (e : Message) (now : Nat) :
    (e.type = "status" → optIncludes e.message "Planning" = true →
      optIncludes e.message "completed" = false → (processEvent st e now).isLoading = true)
    ∧ (e.type = "status" → optIncludes e.message "completed" = true →
      (processEvent st e now).isLoading = false)
    ∧ (e.type = "action_status" → e.action = some "filter" → e.status = some "completed" →
      (processEvent st e now).isLoading = false)
    ∧ ((e.type == "status" && optIncludes e.message "Planning") = false →
       (e.type == "status" && optIncludes e.message "completed") = false →
       (e.type == "action_status" && e.action == some "filter" && e.status == some "completed") = false →
      (processEvent st e now).isLoading = st.isLoading) := by
  refine ⟨?_, ?_, ?_, ?_⟩
  · intro ht hp hcn
    simp [processEvent, ht, hp, hcn]
  · intro ht hcm
    simp [processEvent, ht, hcm]
  · intro ht ha hs
    simp [processEvent, ht, ha, hs]
  · intro h1 h2 h3
    simp [processEvent, h1, h2, h3]

/-- Witness for C6: the four loading rules exercised on concrete events. -/
theorem loading_flag_rules_witness :
    (processEvent initState { type := "status", message := some "Planning your task" } 0).isLoading = true
    ∧ (processEvent { initState with isLoading := true } { type := "status", message := some "Task completed" } 1).isLoading = false
    ∧ (processEvent { initState with isLoading := true } { type := "action_status", action := some "filter", status := some "completed" } 2).isLoading = false
    ∧ (processEvent { initState with isLoading := true } { type := "plan" } 3).isLoading
        = ({ initState with isLoading := true } : State).isLoading :=
  ⟨(loading_flag_rules initState { type := "status", message := some "Planning your task" } 0).1
      rfl (by decide) (by decide),
   (loading_flag_rules { initState with isLoading := true } { type := "status", message := some "Task completed" } 1).2.1
      rfl (by decide),
   (loading_flag_rules { initState with isLoading := true } { type := "action_status", action := some "filter", status := some "completed" } 2).2.2.1
      rfl rfl rfl,
   (loading_flag_rules { initState with isLoading := true } { type := "plan" } 3).2.2.2
      (by decide) (by decide) (by decide)⟩

/-- C9: an inbound event whose `type` is none of the recognized kinds is
appended at the tail of the timeline (nothing is removed), and the loading
flag, the answered-clarification set and the filter selection map are all
unchanged. -/
theorem unknown_type_appended (st : State) (e : Message) (now : Nat)
    (h : recognizedTypes.contains e.type = false) :
    (processEvent st e now).messages = st.messages ++ [{ e with timestamp := now }]
    ∧ (processEvent st e now).isLoading = st.isLoading
    ∧ (processEvent st e now).selectedClarifications = st.selectedClarifications
    ∧ (processEvent st e now).selectedFilters = st.selectedFilters := by
  have hmem : ¬(e.type ∈ recognizedTypes) := by simpa using h
  have hA : (e.type == "action_status") = false := by
    rw [beq_eq_false_iff_ne]
    intro hEq
    exact hmem (by rw [hEq]; simp [recognizedTypes])
  have hS : (e.type == "status") = false := by
    rw [beq_eq_false_iff_ne]
    intro hEq
    exact hmem (by rw [hEq]; simp [recognizedTypes])
  exact ⟨by simp [processEvent, hA], by simp [processEvent, hS, hA], rfl, rfl⟩

/-- Witness for C9: an event of the unrecognized kind "telemetry" lands at
the tail and perturbs nothing. -/
theorem unknown_type_appended_witness :
    (processEvent c1State { type := "telemetry" } 4).messages
      = c1State.messages ++ [{ type := "telemetry", timestamp := 4 }]
    ∧ (processEvent c1State { type := "telemetry" } 4).isLoading = c1State.isLoading :=
  ⟨(unknown_type_appended c1State { type := "telemetry" } 4 rfl).1,
   (unknown_type_appended c1State { type := "telemetry" } 4 rfl).2.1⟩

/-! The submitted filter string is never falsy, so "Apply Filters" always
goes out; lemmas for the filter-submission claim. -/

theorem joinSpace_ne_empty (parts : List String) (h : ∀ p ∈ parts, p ≠ "") (hne : parts ≠ []) :
    joinSpace parts ≠ "" := by
  match parts with
  | [] => exact absurd rfl hne
  | [s] =>
      have := h s (by simp)
      simpa [joinSpace] using this
  | s :: t :: rest =>
      intro hEq
      have hdata : (s ++ " " ++ joinSpace (t :: rest)).data = ("" : String).data := by
        rw [show joinSpace (s :: t :: rest) = s ++ " " ++ joinSpace (t :: rest) from rfl] at hEq
        rw [hEq]
      rw [String.data_append, String.data_append] at hdata
      simp at hdata

theorem submitString_ne_empty (st : State) (fid : String) : submitString st fid ≠ "" := by
  simp only [submitString]
  by_cases h :
      ((((st.selectedFilters.lookup fid).getD []).filter fun fv => fv.2 != "").map fun fv => fv.2).length > 0
  · rw [if_pos h]
    apply joinSpace_ne_empty
    · intro p hp
      simp only [List.mem_map, List.mem_filter] at hp
      obtain ⟨fv, ⟨-, h2⟩, rfl⟩ := hp
      simpa using h2
    · intro hnil
      rw [hnil] at h
      simp at h
  · rw [if_neg h]
    decide

/-- C4 (amended): with the connection open, "Apply Filters" sends exactly
one payload whose instruction and value are the `"skip"` sentinel when no
field has a selection and otherwise the selected option values joined by
single spaces in the panel's selection-map order — the order the fields
were first selected, which need not be the panel's field declaration
order — with `is_clarification` true and `clarification_type`
"product_filter_refinement"; the selection map itself stays unchanged. -/
theorem submit_filters_payload (st : State) (fid : String) (now : Nat)
    (hws : st.wsPresent = true) (hc : st.connected = true) :
    (submitFilters st fid now).outbox
      = st.outbox ++ [{ instruction := submitString st fid, is_clarification := true,
                        value := some (submitString st fid),
                        clarification_type := some "product_filter_refinement" }]
    ∧ (submitFilters st fid now).messages
      = st.messages ++ [{ type := "user", message := some (submitString st fid), timestamp := now }]
    ∧ (submitFilters st fid now).isLoading = true
    ∧ (submitFilters st fid now).selectedFilters = st.selectedFilters := by
  have hkey : submitFilters st fid now
      = sendMessage st (some (submitString st fid)) (some "product_filter_refinement") now := rfl
  have hbeq : (submitString st fid == "") = false := by
    rw [beq_eq_false_iff_ne]
    exact submitString_ne_empty st fid
  rw [hkey]
  refine ⟨?_, ?_, ?_, ?_⟩ <;>
    simp [sendMessage, orElse, strTruthy, hbeq, hws, hc, submitString_ne_empty st fid]

/-- Witness for C4: the counterexample panel state submits "red M". -/
theorem submit_filters_payload_witness :
    (submitFilters (toggleFilterOption (toggleFilterOption { initState with connected := true } "filter-7" "color" "red") "filter-7" "size" "M") "filter-7" 9).isLoading = true :=
  (submit_filters_payload
      (toggleFilterOption (toggleFilterOption { initState with connected := true } "filter-7" "color" "red") "filter-7" "size" "M")
      "filter-7" 9 rfl rfl).2.2.1

/-- C4 counterexample: panel "filter-7" declares its fields in the order
[size, color]; the user selects color = "red" first and then size = "M";
"Apply Filters" sends the literal string "red M" — the selection-map
(first-selected) order — while joining in the declared field order would
give "M red". -/
theorem submit_filters_not_declaration_order :
    (submitFilters (toggleFilterOption (toggleFilterOption { initState with connected := true } "filter-7" "color" "red") "filter-7" "size" "M") "filter-7" 9).outbox
      = [{ instruction := "red M", is_clarification := true, value := some "red M",
           clarification_type := some "product_filter_refinement" }]
    ∧ declarationOrderJoin ["size", "color"]
        (((toggleFilterOption (toggleFilterOption { initState with connected := true } "filter-7" "color" "red") "filter-7" "size" "M").selectedFilters.lookup "filter-7").getD [])
      = "M red"
    ∧ ("red M" : String) ≠ "M red" := by
  exact ⟨rfl, rfl, by decide⟩

end ChatWindow
